import Mathlib

/-!
Shallow embedding of `spotifyservice/server.go` (package `spotifyservice`),
the OAuth2 login/callback server of schairez/spotifywork.

The HTTP handlers are modelled as pure functions from a request value (the
query parameters and the result of reading the state cookie) and an oracle
(the provider operations `Exchange`, `GetUserProfileRequest`,
`GetUserSavedTracks`) to a pair of traces: the writes issued on the
`http.ResponseWriter` and the provider calls made, both in program order.
Randomness (`crypto/rand.Read`) is modelled by passing the random bytes in.
-/

namespace Spotifywork

/-- HTTP status constants as used by the source (net/http). -/
def statusTemporaryRedirect : Nat := 307

def statusUnauthorized : Nat := 401

def statusBadRequest : Nat := 400

/-- `const stateCookieName = "oauthState"` from server.go. -/
def stateCookieName : String := "oauthState"

/-- The message of Go's `http.ErrNoCookie`, as produced by `err.Error()`. -/
def errNoCookieMsg : String := "http: named cookie not present"

/-! ### base64 standard encoding (encoding/base64, `StdEncoding`)

`genRandState` calls `base64.StdEncoding.EncodeToString(bytes)`. We embed the
standard base64 algorithm: the std alphabet `A-Za-z0-9+/` with `=` padding.
The Go encoder indexes the alphabet with six-bit groups masked by `&0x3F`,
which we render as `% 64`. -/

/-- The standard base64 alphabet used by `base64.StdEncoding`. -/
def base64StdAlphabet : String :=
  "ABCDEFGHIJKLMNOPQRSTUVWXYZabcdefghijklmnopqrstuvwxyz0123456789+/"

/-- Character of the std alphabet at a six-bit index. -/
def b64Char (n : Nat) : Char := base64StdAlphabet.toList.getD n 'A'

/-- Encode a byte list three bytes at a time, as `encoding/base64` does,
padding a final group of one byte with `==` and of two bytes with `=`. -/
def b64EncodeChars : List Nat → List Char
  | [] => []
  | [b1] =>
      let val := b1 * 65536
      [b64Char (val / 262144 % 64), b64Char (val / 4096 % 64), '=', '=']
  | [b1, b2] =>
      let val := b1 * 65536 + b2 * 256
      [b64Char (val / 262144 % 64), b64Char (val / 4096 % 64),
       b64Char (val / 64 % 64), '=']
  | b1 :: b2 :: b3 :: rest =>
      let val := b1 * 65536 + b2 * 256 + b3
      b64Char (val / 262144 % 64) :: b64Char (val / 4096 % 64) ::
        b64Char (val / 64 % 64) :: b64Char (val % 64) :: b64EncodeChars rest

/-- `base64.StdEncoding.EncodeToString`. -/
def base64StdEncodeToString (bytes : List Nat) : String :=
  String.mk (b64EncodeChars bytes)

/-- `genRandState` from server.go: reads 32 random bytes and returns their
`base64.StdEncoding` encoding. The random bytes read by `rand.Read` are the
argument; the fatal-on-entropy-failure path is outside the function value. -/
def genRandState (randBytes : List Nat) : String :=
  base64StdEncodeToString randBytes

/-! ### Data for the provider operations -/

/-- `oauth2.Token` as used by the handler: only carried, never inspected. -/
structure Token where
  accessToken : String
deriving DecidableEq, Repr

/-- `spotifyapi` user profile: carried and logged only. -/
structure UserProfile where
  id : String
deriving DecidableEq, Repr

/-- `spotifyapi` saved-tracks page: carried and logged only. -/
structure TracksPage where
  items : List String
deriving DecidableEq, Repr

/-- `spotifyapi.QParams` as instantiated by the callback handler
(`Limit`, `Offset`, `Market` pointers, here the pointed-to values). -/
structure QParams where
  limit : Int
  offset : Int
  market : String
deriving DecidableEq, Repr

/-- The provider operations the callback handler invokes, as functions:
`s.client.Config.Exchange`, `s.client.GetUserProfileRequest`,
`s.client.GetUserSavedTracks`. An error result carries `err.Error()`. -/
structure Oracle where
  exchange : String → Except String Token
  getUserProfileRequest : Token → Except String UserProfile
  getUserSavedTracks : Token → QParams → Except String TracksPage

/-! ### Requests and effect traces -/

/-- Result of `r.Cookie(stateCookieName)`: the cookie value, Go's
`http.ErrNoCookie`, or some other cookie-read error with its message. -/
inductive CookieResult where
  | ok (value : String)
  | errNoCookie
  | errOther (msg : String)
deriving DecidableEq, Repr

/-- A GET /auth/callback request: the `error`, `state` and `code` query
parameters (empty string when absent, as `r.FormValue` returns), and the
result of reading the `oauthState` cookie. -/
structure CallbackRequest where
  errorParam : String
  stateParam : String
  codeParam : String
  cookieResult : CookieResult
deriving DecidableEq, Repr

/-- The consent-page URL built for the redirect in GET /auth.
Modelled from the spec: `buildAuthURL(state)` (the adapter is
`spotifyapi.Client` wrapping `oauth2.Config.AuthCodeURL`, whose code is not
under src/) is a deterministic function of credentials and state that embeds
the state value and the redirect URL so the provider echoes the state back. -/
structure AuthURL where
  endpoint : String
  clientID : String
  redirectURI : String
  state : String
deriving DecidableEq, Repr

/-- Writes the handlers issue on the `http.ResponseWriter`, in order. -/
inductive Effect where
  | redirect (location : String) (status : Nat)
  | redirectAuth (url : AuthURL) (status : Nat)
  | httpError (msg : String) (status : Nat)
  | setCookie (name value : String)
  | setHeader (name value : String)
  | writeHeader (status : Nat)
deriving DecidableEq, Repr

/-- Provider calls made by the callback handler, in order. -/
inductive ApiCall where
  | exchangeCall (code : String)
  | profileCall (token : Token)
  | tracksCall (token : Token) (params : QParams)
deriving DecidableEq, Repr

/-! ### The GET /auth/callback handler -/

/-- The GET /auth/callback closure from `routes` in server.go, as a function
from the oracle and the request to the pair (response writes, provider
calls), both in program order. Mirrors the source line by line:
provider-error check, cookie read (note the missing `return` inside the
`err == http.ErrNoCookie` branch, so the 400 error write follows the
unauthorized redirect), exact state comparison, then `Exchange`,
`GetUserProfileRequest`, `GetUserSavedTracks` with limit 50, offset 0,
market "us"; on success nothing is written to the response. -/
def authCallbackHandler (o : Oracle) (r : CallbackRequest) :
    List Effect × List ApiCall :=
  if r.errorParam ≠ "" then
    ([.redirect "/" statusTemporaryRedirect], [])
  else
    match r.cookieResult with
    | .errNoCookie =>
        ([.redirect "/" statusUnauthorized,
          .httpError errNoCookieMsg statusBadRequest], [])
    | .errOther msg =>
        ([.httpError msg statusBadRequest], [])
    | .ok cookieValue =>
        if r.stateParam ≠ cookieValue then
          ([.redirect "/" statusUnauthorized], [])
        else
          let authCode := r.codeParam
          match o.exchange authCode with
          | .error e =>
              ([.httpError e statusBadRequest], [.exchangeCall authCode])
          | .ok token =>
              match o.getUserProfileRequest token with
              | .error e =>
                  ([.httpError e statusBadRequest],
                   [.exchangeCall authCode, .profileCall token])
              | .ok _user =>
                  let params : QParams := ⟨50, 0, "us"⟩
                  match o.getUserSavedTracks token params with
                  | .error e =>
                      ([.httpError e statusBadRequest],
                       [.exchangeCall authCode, .profileCall token,
                        .tracksCall token params])
                  | .ok _tracks =>
                      ([], [.exchangeCall authCode, .profileCall token,
                            .tracksCall token params])

/-! ### The GET /auth handler -/

/-- `oauth2.Config.AuthCodeURL(state)`. Modelled from the spec:
`buildAuthURL(state) -> URL` is a deterministic function of the credentials
and the state, embedding the state and the redirect URL. -/
def authCodeURL (clientID redirectURI state : String) : AuthURL :=
  ⟨"https://accounts.spotify.com/authorize", clientID, redirectURI, state⟩

/-- The GET /auth closure from `routes` in server.go: reads (and only logs)
any existing cookie, generates a fresh state from the random bytes, sets the
`oauthState` cookie to it (`internal.NewCookie`, modelled from the spec:
name fixed, value = state), and issues a 307 redirect to the consent URL
built from the same state. -/
def authHandler (clientID redirectURI : String) (randBytes : List Nat) :
    List Effect :=
  let localState := genRandState randBytes
  [.setCookie stateCookieName localState,
   .redirectAuth (authCodeURL clientID redirectURI localState)
     statusTemporaryRedirect]

/-! ### The GET /logout/{provider} handler -/

/-- The GET /logout/{provider} closure from `routes` in server.go: sets the
Location header to "/" and writes status 307; nothing else. The provider
path segment is unused. The handler makes no provider calls, so its call
trace is empty. -/
def logoutHandler (_provider : String) : List Effect × List ApiCall :=
  ([.setHeader "Location" "/", .writeHeader statusTemporaryRedirect], [])

/-! ### Concrete oracles for witnesses and counterexamples -/

/-- An oracle on which every provider operation succeeds. -/
def okOracle : Oracle :=
  ⟨fun _ => .ok ⟨"tok"⟩, fun _ => .ok ⟨"user1"⟩, fun _ _ => .ok ⟨[]⟩⟩

/-- An oracle on which every provider operation fails. -/
def failOracle : Oracle :=
  ⟨fun _ => .error "exchange failed", fun _ => .error "profile failed",
   fun _ _ => .error "tracks failed"⟩

/-! ### Helper lemmas -/

/-- Every six-bit index (anything reduced mod 64) selects a character of the
standard base64 alphabet. -/
lemma b64Char_mod_mem (m : Nat) :
    b64Char (m % 64) ∈ base64StdAlphabet.toList := by
  have h : m % 64 < base64StdAlphabet.toList.length := by
    have h64 : m % 64 < 64 := Nat.mod_lt _ (by decide)
    have hlen : base64StdAlphabet.toList.length = 64 := by decide
    omega
  unfold b64Char
  rw [List.getD_eq_getElem _ _ h]
  exact List.getElem_mem h

/-- The base64 encoder emits four characters per (partial) input group. -/
lemma b64EncodeChars_length (l : List Nat) :
    (b64EncodeChars l).length = 4 * ((l.length + 2) / 3) := by
  induction l using b64EncodeChars.induct with
  | case1 => simp [b64EncodeChars]
  | case2 b1 => simp [b64EncodeChars]
  | case3 b1 b2 => simp [b64EncodeChars]
  | case4 b1 b2 b3 rest ih =>
      simp only [b64EncodeChars, List.length_cons, List.length_append, ih]
      omega

/-- Every character the base64 encoder emits is from the standard alphabet
or is the padding character. -/
lemma b64EncodeChars_mem (l : List Nat) :
    ∀ c ∈ b64EncodeChars l, c ∈ base64StdAlphabet.toList ∨ c = '=' := by
  induction l using b64EncodeChars.induct with
  | case1 => simp [b64EncodeChars]
  | case2 b1 =>
      simp only [b64EncodeChars, List.mem_cons, List.not_mem_nil, or_false]
      rintro c (rfl | rfl | rfl | rfl)
      · exact Or.inl (b64Char_mod_mem _)
      · exact Or.inl (b64Char_mod_mem _)
      · exact Or.inr rfl
      · exact Or.inr rfl
  | case3 b1 b2 =>
      simp only [b64EncodeChars, List.mem_cons, List.not_mem_nil, or_false]
      rintro c (rfl | rfl | rfl | rfl)
      · exact Or.inl (b64Char_mod_mem _)
      · exact Or.inl (b64Char_mod_mem _)
      · exact Or.inl (b64Char_mod_mem _)
      · exact Or.inr rfl
  | case4 b1 b2 b3 rest ih =>
      simp only [b64EncodeChars, List.mem_cons]
      rintro c (rfl | rfl | rfl | rfl | hmem)
      · exact Or.inl (b64Char_mod_mem _)
      · exact Or.inl (b64Char_mod_mem _)
      · exact Or.inl (b64Char_mod_mem _)
      · exact Or.inl (b64Char_mod_mem _)
      · exact ih c hmem

/-- Exhaustive case analysis of the callback handler: either the handler
stops before the exchange with no provider call, or the provider calls form
the strictly ordered chain exchange, then profile, then tracks, truncated at
the first failing step, each failure answered by a 400 with that step's
error message, and full success answered with no response write. -/
lemma authCallbackHandler_cases (o : Oracle) (r : CallbackRequest) :
    (authCallbackHandler o r).2 = [] ∨
    (∃ e, o.exchange r.codeParam = .error e ∧
      authCallbackHandler o r =
        ([.httpError e statusBadRequest], [.exchangeCall r.codeParam])) ∨
    (∃ t e, o.exchange r.codeParam = .ok t ∧
      o.getUserProfileRequest t = .error e ∧
      authCallbackHandler o r =
        ([.httpError e statusBadRequest],
         [.exchangeCall r.codeParam, .profileCall t])) ∨
    (∃ t u e, o.exchange r.codeParam = .ok t ∧
      o.getUserProfileRequest t = .ok u ∧
      o.getUserSavedTracks t ⟨50, 0, "us"⟩ = .error e ∧
      authCallbackHandler o r =
        ([.httpError e statusBadRequest],
         [.exchangeCall r.codeParam, .profileCall t,
          .tracksCall t ⟨50, 0, "us"⟩])) ∨
    (∃ t u tr, o.exchange r.codeParam = .ok t ∧
      o.getUserProfileRequest t = .ok u ∧
      o.getUserSavedTracks t ⟨50, 0, "us"⟩ = .ok tr ∧
      authCallbackHandler o r =
        ([], [.exchangeCall r.codeParam, .profileCall t,
              .tracksCall t ⟨50, 0, "us"⟩])) := by
  by_cases he : r.errorParam = ""
  · cases hc : r.cookieResult with
    | errNoCookie => left; simp [authCallbackHandler, he, hc]
    | errOther m => left; simp [authCallbackHandler, he, hc]
    | ok cv =>
        by_cases hs : r.stateParam = cv
        · cases hx : o.exchange r.codeParam with
          | error e =>
              right; left
              exact ⟨e, rfl, by simp [authCallbackHandler, he, hc, hs, hx]⟩
          | ok t =>
              cases hp : o.getUserProfileRequest t with
              | error e =>
                  right; right; left
                  exact ⟨t, e, rfl, hp,
                    by simp [authCallbackHandler, he, hc, hs, hx, hp]⟩
              | ok u =>
                  cases ht : o.getUserSavedTracks t ⟨50, 0, "us"⟩ with
                  | error e =>
                      right; right; right; left
                      exact ⟨t, u, e, rfl, hp, ht,
                        by simp [authCallbackHandler, he, hc, hs, hx, hp, ht]⟩
                  | ok tr =>
                      right; right; right; right
                      exact ⟨t, u, tr, rfl, hp, ht,
                        by simp [authCallbackHandler, he, hc, hs, hx, hp, ht]⟩
        · left; simp [authCallbackHandler, he, hc, hs]
  · left; simp [authCallbackHandler, he]

/-! ### Claims -/

/-- Claim C1: in the /auth/callback handler the state comparison is a
case-sensitive exact string match: whenever the request reaches the
comparison (no provider error) with a stored cookie value, any `state`
query parameter differing in any character from the cookie value makes the
handler redirect home with unauthorized status, and the token exchange and
both downstream API calls are not invoked (the provider-call trace is
empty). -/
theorem callback_state_mismatch_no_exchange (o : Oracle) (r : CallbackRequest)
    (cv : String) (he : r.errorParam = "") (hc : r.cookieResult = .ok cv)
    (hs : r.stateParam ≠ cv) :
    authCallbackHandler o r = ([.redirect "/" statusUnauthorized], []) := by
  simp [authCallbackHandler, he, hc, hs]

/-- Witness for C1: a callback whose state differs from the cookie only in
letter case is rejected with the unauthorized redirect and no provider
call. -/
theorem callback_state_mismatch_no_exchange_witness :
    authCallbackHandler okOracle ⟨"", "abc", "xyz", .ok "ABC"⟩ =
      ([.redirect "/" statusUnauthorized], []) :=
  callback_state_mismatch_no_exchange okOracle ⟨"", "abc", "xyz", .ok "ABC"⟩
    "ABC" rfl rfl (by decide)

/-- Claim C2: a callback carrying a non-empty provider `error` query
parameter is answered by a redirect to home alone: the token exchange is
never called and no downstream API call is made, regardless of the `code`,
`state` and cookie values present. -/
theorem callback_provider_error_no_exchange (o : Oracle) (r : CallbackRequest)
    (he : r.errorParam ≠ "") :
    authCallbackHandler o r = ([.redirect "/" statusTemporaryRedirect], []) := by
  simp [authCallbackHandler, he]

/-- Witness for C2: a denied callback with matching state and a code still
makes no provider call. -/
theorem callback_provider_error_no_exchange_witness :
    authCallbackHandler okOracle ⟨"access_denied", "A", "c", .ok "A"⟩ =
      ([.redirect "/" statusTemporaryRedirect], []) :=
  callback_provider_error_no_exchange okOracle
    ⟨"access_denied", "A", "c", .ok "A"⟩ (by decide)

/-- Claim C3: on a callback without provider error, a missing state cookie
(the `ErrNoCookie` case) makes the handler respond with the unauthorized
redirect home as its first write and make no provider call, whatever the
`state` parameter is; and among cookie-read faults it is the only one
producing that redirect: any other cookie-read fault is answered by a
generic 400 error alone, with no redirect at all. -/
theorem callback_missing_cookie_unauthorized (o : Oracle) (r : CallbackRequest)
    (he : r.errorParam = "") :
    (r.cookieResult = .errNoCookie →
      (authCallbackHandler o r).1.head? =
          some (.redirect "/" statusUnauthorized) ∧
        (authCallbackHandler o r).2 = []) ∧
    (∀ m, r.cookieResult = .errOther m →
      authCallbackHandler o r = ([.httpError m statusBadRequest], []) ∧
        ∀ loc st, Effect.redirect loc st ∉ (authCallbackHandler o r).1) := by
  constructor
  · intro hc
    simp [authCallbackHandler, he, hc]
  · intro m hc
    simp [authCallbackHandler, he, hc]

/-- Witness for C3: with a valid-looking state parameter but no cookie the
handler still issues the unauthorized redirect and calls nothing; an other
cookie-read fault yields only a 400. -/
theorem callback_missing_cookie_unauthorized_witness :
    ((authCallbackHandler okOracle ⟨"", "A", "c", .errNoCookie⟩).1.head? =
        some (.redirect "/" statusUnauthorized) ∧
      (authCallbackHandler okOracle ⟨"", "A", "c", .errNoCookie⟩).2 = []) ∧
    (authCallbackHandler okOracle ⟨"", "A", "c", .errOther "boom"⟩ =
        ([.httpError "boom" statusBadRequest], []) ∧
      ∀ loc st, Effect.redirect loc st ∉
        (authCallbackHandler okOracle ⟨"", "A", "c", .errOther "boom"⟩).1) :=
  ⟨(callback_missing_cookie_unauthorized okOracle
      ⟨"", "A", "c", .errNoCookie⟩ rfl).1 rfl,
   (callback_missing_cookie_unauthorized okOracle
      ⟨"", "A", "c", .errOther "boom"⟩ rfl).2 "boom" rfl⟩

/-- Counterexample to C4 as stated: on a state-mismatch callback the only
write is a redirect home with status 401 (`http.Redirect` is called with
`http.StatusUnauthorized`), not a 307 redirect. -/
theorem callback_mismatch_not_307 :
    (authCallbackHandler okOracle ⟨"", "B", "", .ok "A"⟩).1 =
        [.redirect "/" statusUnauthorized] ∧
      Effect.redirect "/" statusTemporaryRedirect ∉
        (authCallbackHandler okOracle ⟨"", "B", "", .ok "A"⟩).1 := by
  decide

/-- Claim C4 (amended): the callback responds with a 307 redirect home on
provider denial; on state mismatch and on missing state cookie it redirects
home with status 401 (the missing-cookie case followed by an additional 400
error write); and it responds 400 with the step's error message when the
token exchange, profile fetch, or saved-tracks fetch fails. -/
theorem callback_response_statuses (o : Oracle) (r : CallbackRequest) :
    (r.errorParam ≠ "" →
      authCallbackHandler o r =
        ([.redirect "/" statusTemporaryRedirect], [])) ∧
    (r.errorParam = "" → r.cookieResult = .errNoCookie →
      (authCallbackHandler o r).1 =
        [.redirect "/" statusUnauthorized,
         .httpError errNoCookieMsg statusBadRequest]) ∧
    (∀ cv, r.errorParam = "" → r.cookieResult = .ok cv → r.stateParam ≠ cv →
      (authCallbackHandler o r).1 = [.redirect "/" statusUnauthorized]) ∧
    (∀ cv e, r.errorParam = "" → r.cookieResult = .ok cv →
      r.stateParam = cv → o.exchange r.codeParam = .error e →
      (authCallbackHandler o r).1 = [.httpError e statusBadRequest]) ∧
    (∀ cv t e, r.errorParam = "" → r.cookieResult = .ok cv →
      r.stateParam = cv → o.exchange r.codeParam = .ok t →
      o.getUserProfileRequest t = .error e →
      (authCallbackHandler o r).1 = [.httpError e statusBadRequest]) ∧
    (∀ cv t u e, r.errorParam = "" → r.cookieResult = .ok cv →
      r.stateParam = cv → o.exchange r.codeParam = .ok t →
      o.getUserProfileRequest t = .ok u →
      o.getUserSavedTracks t ⟨50, 0, "us"⟩ = .error e →
      (authCallbackHandler o r).1 = [.httpError e statusBadRequest]) := by
  refine ⟨fun he => ?_, fun he hc => ?_, fun cv he hc hs => ?_,
    fun cv e he hc hs hx => ?_, fun cv t e he hc hs hx hp => ?_,
    fun cv t u e he hc hs hx hp ht => ?_⟩
  · simp [authCallbackHandler, he]
  · simp [authCallbackHandler, he, hc]
  · simp [authCallbackHandler, he, hc, hs]
  · simp [authCallbackHandler, he, hc, hs, hx]
  · simp [authCallbackHandler, he, hc, hs, hx, hp]
  · simp [authCallbackHandler, he, hc, hs, hx, hp, ht]

/-- Witness for C4 (amended): each of the six response shapes at a concrete
request, on the all-failing oracle. -/
theorem callback_response_statuses_witness :
    authCallbackHandler failOracle ⟨"denied", "A", "c", .ok "A"⟩ =
        ([.redirect "/" statusTemporaryRedirect], []) ∧
    (authCallbackHandler failOracle ⟨"", "A", "c", .errNoCookie⟩).1 =
        [.redirect "/" statusUnauthorized,
         .httpError errNoCookieMsg statusBadRequest] ∧
    (authCallbackHandler failOracle ⟨"", "B", "c", .ok "A"⟩).1 =
        [.redirect "/" statusUnauthorized] ∧
    (authCallbackHandler failOracle ⟨"", "A", "c", .ok "A"⟩).1 =
        [.httpError "exchange failed" statusBadRequest] ∧
    (authCallbackHandler
        ⟨fun _ => .ok ⟨"tok"⟩, fun _ => .error "profile failed",
         fun _ _ => .error "tracks failed"⟩
        ⟨"", "A", "c", .ok "A"⟩).1 =
        [.httpError "profile failed" statusBadRequest] ∧
    (authCallbackHandler
        ⟨fun _ => .ok ⟨"tok"⟩, fun _ => .ok ⟨"user1"⟩,
         fun _ _ => .error "tracks failed"⟩
        ⟨"", "A", "c", .ok "A"⟩).1 =
        [.httpError "tracks failed" statusBadRequest] :=
  ⟨(callback_response_statuses failOracle
      ⟨"denied", "A", "c", .ok "A"⟩).1 (by decide),
   (callback_response_statuses failOracle
      ⟨"", "A", "c", .errNoCookie⟩).2.1 rfl rfl,
   (callback_response_statuses failOracle
      ⟨"", "B", "c", .ok "A"⟩).2.2.1 "A" rfl rfl (by decide),
   (callback_response_statuses failOracle
      ⟨"", "A", "c", .ok "A"⟩).2.2.2.1 "A" "exchange failed" rfl rfl rfl rfl,
   (callback_response_statuses
      ⟨fun _ => .ok ⟨"tok"⟩, fun _ => .error "profile failed",
       fun _ _ => .error "tracks failed"⟩
      ⟨"", "A", "c", .ok "A"⟩).2.2.2.2.1 "A" ⟨"tok"⟩ "profile failed"
      rfl rfl rfl rfl rfl,
   (callback_response_statuses
      ⟨fun _ => .ok ⟨"tok"⟩, fun _ => .ok ⟨"user1"⟩,
       fun _ _ => .error "tracks failed"⟩
      ⟨"", "A", "c", .ok "A"⟩).2.2.2.2.2 "A" ⟨"tok"⟩ ⟨"user1"⟩
      "tracks failed" rfl rfl rfl rfl rfl rfl⟩

/-- Counterexample to C5 as stated: `genRandState` is not URL-safe. On the
32-byte input of all 255 the returned string contains the character
&#47; (and padding), which requires URL escaping. -/
theorem genRandState_not_urlsafe :
    '/' ∈ (genRandState (List.replicate 32 255)).toList ∧
      '=' ∈ (genRandState (List.replicate 32 255)).toList ∧
      (List.replicate 32 (255 : Nat)).length = 32 := by
  decide

/-- Claim C5 (amended): `genRandState` returns the standard (not URL-safe)
base64 encoding of its random bytes: every character of the result is from
the standard alphabet, which includes the characters plus and slash, or is
the padding character, and the result of encoding 32 bytes has length 44. -/
theorem genRandState_std_base64 (randBytes : List Nat) :
    (genRandState randBytes).length = 4 * ((randBytes.length + 2) / 3) ∧
    (randBytes.length = 32 → (genRandState randBytes).length = 44) ∧
    ∀ c ∈ (genRandState randBytes).toList,
      c ∈ base64StdAlphabet.toList ∨ c = '=' := by
  have hlen : (genRandState randBytes).length =
      4 * ((randBytes.length + 2) / 3) := by
    simpa [genRandState, base64StdEncodeToString, String.length] using
      b64EncodeChars_length randBytes
  refine ⟨hlen, fun h32 => by rw [hlen, h32], fun c hc => ?_⟩
  exact b64EncodeChars_mem randBytes c
    (by simpa [genRandState, base64StdEncodeToString] using hc)

/-- Witness for C5 (amended): the encoding of 32 zero bytes has length 44
and its first character is in the standard alphabet. -/
theorem genRandState_std_base64_witness :
    (genRandState (List.replicate 32 0)).length = 44 ∧
      ('A' ∈ base64StdAlphabet.toList ∨ 'A' = '=') :=
  ⟨(genRandState_std_base64 (List.replicate 32 0)).2.1 (by decide),
   (genRandState_std_base64 (List.replicate 32 0)).2.2 'A' (by decide)⟩

/-- Claim C6: within one callback invocation the provider operations are
strictly sequential. Either no provider call is made, or the call trace is
the chain exchange, then profile fetch, then tracks fetch, in that order,
truncated at the first failing step; a failing step makes the handler stop
with a 400 response carrying that step's error message, and a later step is
invoked only when every earlier step returned successfully. -/
theorem callback_steps_sequential (o : Oracle) (r : CallbackRequest) :
    (authCallbackHandler o r).2 = [] ∨
    (∃ e, o.exchange r.codeParam = .error e ∧
      authCallbackHandler o r =
        ([.httpError e statusBadRequest], [.exchangeCall r.codeParam])) ∨
    (∃ t e, o.exchange r.codeParam = .ok t ∧
      o.getUserProfileRequest t = .error e ∧
      authCallbackHandler o r =
        ([.httpError e statusBadRequest],
         [.exchangeCall r.codeParam, .profileCall t])) ∨
    (∃ t u e, o.exchange r.codeParam = .ok t ∧
      o.getUserProfileRequest t = .ok u ∧
      o.getUserSavedTracks t ⟨50, 0, "us"⟩ = .error e ∧
      authCallbackHandler o r =
        ([.httpError e statusBadRequest],
         [.exchangeCall r.codeParam, .profileCall t,
          .tracksCall t ⟨50, 0, "us"⟩])) ∨
    (∃ t u tr, o.exchange r.codeParam = .ok t ∧
      o.getUserProfileRequest t = .ok u ∧
      o.getUserSavedTracks t ⟨50, 0, "us"⟩ = .ok tr ∧
      authCallbackHandler o r =
        ([], [.exchangeCall r.codeParam, .profileCall t,
              .tracksCall t ⟨50, 0, "us"⟩])) :=
  authCallbackHandler_cases o r

/-- Claim C7: the GET /auth handler sets the fixed-name `oauthState` cookie
to the freshly generated state and issues a 307 temporary redirect to the
consent URL, and the state embedded in that URL equals the cookie value. -/
theorem auth_sets_cookie_and_redirects (clientID redirectURI : String)
    (randBytes : List Nat) :
    ∃ st url,
      authHandler clientID redirectURI randBytes =
        [Effect.setCookie stateCookieName st,
         Effect.redirectAuth url statusTemporaryRedirect] ∧
      stateCookieName = "oauthState" ∧
      url.state = st ∧ st = genRandState randBytes :=
  ⟨genRandState randBytes,
   authCodeURL clientID redirectURI (genRandState randBytes),
   rfl, rfl, rfl, rfl⟩

/-- Claim C8: whenever the callback handler invokes the saved-tracks fetch
it passes exactly limit 50, offset 0, market "us"; and when that fetch
succeeds the handler writes nothing to the HTTP response (the fetched
profile and tracks are only logged server-side). -/
theorem callback_tracks_params_and_silent_success (o : Oracle)
    (r : CallbackRequest) :
    (∀ t p, ApiCall.tracksCall t p ∈ (authCallbackHandler o r).2 →
      p = ⟨50, 0, "us"⟩) ∧
    (∀ t p tr, ApiCall.tracksCall t p ∈ (authCallbackHandler o r).2 →
      o.getUserSavedTracks t p = .ok tr →
      (authCallbackHandler o r).1 = []) := by
  rcases authCallbackHandler_cases o r with h | ⟨e, hx, h⟩ | ⟨t, e, hx, hp, h⟩
    | ⟨t, u, e, hx, hp, ht, h⟩ | ⟨t, u, tr0, hx, hp, ht, h⟩
  · exact ⟨fun t p hmem => by rw [h] at hmem; simp at hmem,
      fun t p tr hmem _ => by rw [h] at hmem; simp at hmem⟩
  · exact ⟨fun t p hmem => by rw [h] at hmem; simp at hmem,
      fun t p tr hmem _ => by rw [h] at hmem; simp at hmem⟩
  · exact ⟨fun t1 p hmem => by rw [h] at hmem; simp at hmem,
      fun t1 p tr hmem _ => by rw [h] at hmem; simp at hmem⟩
  · refine ⟨fun t1 p hmem => ?_, fun t1 p tr hmem hok => ?_⟩
    · rw [h] at hmem; simp at hmem; exact hmem.2
    · rw [h] at hmem; simp at hmem
      obtain ⟨rfl, rfl⟩ := hmem
      rw [ht] at hok
      simp at hok
  · refine ⟨fun t1 p hmem => ?_, fun t1 p tr hmem hok => ?_⟩
    · rw [h] at hmem; simp at hmem; exact hmem.2
    · rw [h]

/-- Witness for C8: on the all-succeeding oracle with a matching state, the
tracks call carries the fixed parameters and the response trace is empty. -/
theorem callback_tracks_params_and_silent_success_witness :
    (⟨50, 0, "us"⟩ : QParams) = ⟨50, 0, "us"⟩ ∧
      (authCallbackHandler okOracle ⟨"", "A", "c", .ok "A"⟩).1 = [] :=
  ⟨(callback_tracks_params_and_silent_success okOracle
      ⟨"", "A", "c", .ok "A"⟩).1 ⟨"tok"⟩ ⟨50, 0, "us"⟩ (by decide),
   (callback_tracks_params_and_silent_success okOracle
      ⟨"", "A", "c", .ok "A"⟩).2 ⟨"tok"⟩ ⟨50, 0, "us"⟩ ⟨[]⟩ (by decide) rfl⟩

/-- Claim C9: in the `ErrNoCookie` branch the handler does not return after
the unauthorized redirect: execution falls through, so a missing-cookie
callback produces both the redirect write and a 400 error write for the
same request. -/
theorem callback_no_cookie_double_write (o : Oracle) (r : CallbackRequest)
    (he : r.errorParam = "") (hc : r.cookieResult = .errNoCookie) :
    authCallbackHandler o r =
      ([.redirect "/" statusUnauthorized,
        .httpError errNoCookieMsg statusBadRequest], []) := by
  simp [authCallbackHandler, he, hc]

/-- Witness for C9: a concrete missing-cookie callback yields exactly the
two writes, redirect then 400 error. -/
theorem callback_no_cookie_double_write_witness :
    authCallbackHandler okOracle ⟨"", "A", "c", .errNoCookie⟩ =
      ([.redirect "/" statusUnauthorized,
        .httpError errNoCookieMsg statusBadRequest], []) :=
  callback_no_cookie_double_write okOracle ⟨"", "A", "c", .errNoCookie⟩ rfl rfl

/-- Claim C10: the GET /logout/{provider} handler, for every provider path
segment, only sets the Location header to "/" and writes status 307; it
sets no cookie (in particular it does not touch `oauthState`) and makes no
provider call. -/
theorem logout_redirect_only (p : String) :
    logoutHandler p =
        ([.setHeader "Location" "/",
          .writeHeader statusTemporaryRedirect], []) ∧
      (∀ n v, Effect.setCookie n v ∉ (logoutHandler p).1) ∧
      (logoutHandler p).2 = [] := by
  refine ⟨rfl, fun n v => ?_, rfl⟩
  simp [logoutHandler]

/-- Witness for C10: the logout handler at the provider segment "spotify". -/
theorem logout_redirect_only_witness :
    logoutHandler "spotify" =
        ([.setHeader "Location" "/",
          .writeHeader statusTemporaryRedirect], []) ∧
      (∀ n v, Effect.setCookie n v ∉ (logoutHandler "spotify").1) ∧
      (logoutHandler "spotify").2 = [] :=
  logout_redirect_only "spotify"

end Spotifywork
